import Mathlib

/-!
Verification of the askem retrieval glue code: a shallow embedding of
`src/askem/retriever/base.py` (Weaviate query building and response
reshaping) and `src/backend.py` (stateless wrappers over hosted / local
language-model APIs), with theorems checking the natural-language
specification against the embedded code.
-/

namespace Askem

/-! ## Retriever data model (`src/askem/retriever/base.py`) -/

/-- The `Document` data-transfer object (from `data_models.Document`):
paper id, topic, object id, doc type, text, distance score. -/
structure Document where
  paper_id : String
  topic : String
  cosmos_object_id : String
  doc_type : String
  text : String
  distance : ℚ
  deriving Repr, DecidableEq

/-- A value appearing under `valueText` in a where-filter operand:
either a single string or a list of strings. -/
inductive FilterValue where
  | s (x : String)
  | l (xs : List String)
  deriving Repr, DecidableEq

/-- One operand dict of the `where` filter:
`{"path": [...], "operator": ..., "valueText": ...}`. -/
structure Operand where
  path : List String
  operator : String
  valueText : FilterValue
  deriving Repr, DecidableEq

/-- The `where` filter dict: `{"operator": "And", "operands": [...]}`. -/
structure WhereFilter where
  operator : String
  operands : List Operand
  deriving Repr, DecidableEq

/-- A `moveTo` / `moveAwayFrom` clause: `{"concepts": [...], "force": ...}`.
The force is the raw weight argument, which the Python signature allows to
be `None`. -/
structure MoveClause where
  concepts : List String
  force : Option ℚ
  deriving Repr, DecidableEq

/-- The `nearText` semantic-search payload.  The optional keys `distance`,
`moveTo` and `moveAwayFrom` are present exactly when the `Option` is
`some`. -/
structure NearTextQuery where
  concepts : List String
  distance : Option ℚ
  moveTo : Option MoveClause
  moveAwayFrom : Option MoveClause
  deriving Repr, DecidableEq

/-- The accumulated Weaviate GraphQL query built by chaining
`client.query.get(...).with_additional(...).with_where(...)`
`.with_near_text(...).with_limit(...)`. -/
structure Query where
  className : String
  fields : List String
  additional : List String
  whereFilter : Option WhereFilter
  nearText : Option NearTextQuery
  limit : Option Nat
  deriving Repr, DecidableEq

/-- One entry of `results["data"]["Get"]["Passage"]` with its
`_additional` sub-dict. -/
structure Additional where
  distance : ℚ
  deriving Repr, DecidableEq

/-- A retrieved passage record as returned by the vector database. -/
structure PassageResult where
  paper_id : String
  cosmos_object_id : String
  preprocessor_id : String
  topic : String
  doc_type : String
  text_content : String
  additional : Additional
  deriving Repr, DecidableEq

/-- The `results["data"]["Get"]` sub-dict. -/
structure GetField where
  Passage : List PassageResult
  deriving Repr, DecidableEq

/-- The response dict returned by `.do()`: it may carry an `"errors"` key
(modelled as an opaque string blob) and a `"data"` key. -/
structure WeaviateResponse where
  errors : Option String
  data : Option GetField
  deriving Repr, DecidableEq

/-- The `detail` of a raised `HTTPException`: either the upstream errors
forwarded unchanged, or the `"No results found: {results}"` message
carrying the response. -/
inductive Detail where
  | upstream (errors : String)
  | noResults (results : WeaviateResponse)
  deriving Repr, DecidableEq

/-- `fastapi.HTTPException` with a status code and a detail. -/
structure HTTPException where
  status_code : Nat
  detail : Detail
  deriving Repr, DecidableEq

/-! ## Retriever functions -/

/-- The `output_fields` list of `get_documents`. -/
def output_fields : List String :=
  ["paper_id", "cosmos_object_id", "preprocessor_id", "topic", "doc_type",
   "text_content"]

/-- The property names read from a passage dict by `to_document`
(`result["paper_id"]`, `result["topic"]`, `result["cosmos_object_id"]`,
`result["doc_type"]`, `result["text_content"]`; the separate
`_additional` sub-dict is not a schema property). -/
def to_document_fields : List String :=
  ["paper_id", "topic", "cosmos_object_id", "doc_type", "text_content"]

/-- One property declaration of the schema. -/
structure SchemaProperty where
  name : String
  dataType : List String
  skip : Bool
  deriving Repr, DecidableEq

/-- The schema dict returned by `get_schema` (class name, vectorizer and
properties; `moduleConfig` flags are kept as the `skip` booleans). -/
structure Schema where
  className : String
  description : String
  vectorizer : String
  vectorIndexDistance : String
  properties : List SchemaProperty
  deriving Repr, DecidableEq

/-- `get_schema`: the v1 schema created by `init_retriever`. -/
def get_schema (class_name : String := "Passage") : Schema :=
  { className := class_name
    description := "Paragraph chunk of a document"
    vectorizer := "text2vec-transformers"
    vectorIndexDistance := "dot"
    properties :=
      [⟨"paper_id", ["text"], true⟩,
       ⟨"preprocessor_id", ["text"], true⟩,
       ⟨"doc_type", ["text"], true⟩,
       ⟨"cosmos_object_id", ["text"], true⟩,
       ⟨"topic_list", ["text[]"], true⟩,
       ⟨"hashed_text", ["text"], true⟩,
       ⟨"text_content", ["text"], false⟩] }

/-- `to_document`: convert a weaviate result to a `Document`. -/
def to_document (result : PassageResult) : Document :=
  { paper_id := result.paper_id
    topic := result.topic
    cosmos_object_id := result.cosmos_object_id
    doc_type := result.doc_type
    text := result.text_content
    distance := result.additional.distance }

/-- The `where_filter["operands"]` list built by the four sequential
`if ... is not None` appends in `get_documents`. -/
def buildWhereOperands (topic doc_type preprocessor_id : Option String)
    (paper_ids : Option (List String)) : List Operand :=
  (match topic with
   | some t => [⟨["topic"], "Equal", .s t⟩]
   | none => []) ++
  (match doc_type with
   | some t => [⟨["doc_type"], "Equal", .s t⟩]
   | none => []) ++
  (match preprocessor_id with
   | some t => [⟨["preprocessor_id"], "Equal", .s t⟩]
   | none => []) ++
  (match paper_ids with
   | some l => [⟨["paper_id"], "ContainsAny", .l l⟩]
   | none => [])

/-- The `near_text_query` dict built by `get_documents`: it starts as
`{"concepts": [question]}` and conditionally gains `distance`, `moveTo`
and `moveAwayFrom` keys. -/
def buildNearText (question : String) (distance : Option ℚ)
    (move_to : Option String) (move_to_weight : Option ℚ)
    (move_away_from : Option String) (move_away_from_weight : Option ℚ) :
    NearTextQuery :=
  let q : NearTextQuery := ⟨[question], none, none, none⟩
  let q := match distance with
    | some d => { q with distance := some d }
    | none => q
  let q := match move_to with
    | some m => { q with moveTo := some ⟨[m], move_to_weight⟩ }
    | none => q
  match move_away_from with
  | some m => { q with moveAwayFrom := some ⟨[m], move_away_from_weight⟩ }
  | none => q

/-- The full query assembled by `get_documents` before `.do()` is called:
class `"Passage"` with `output_fields`, additional `["distance"]`, the
`where` filter attached only when its operand list is non-empty, the
`nearText` payload, and the limit `top_k`. -/
def build_query (question : String) (top_k : Nat) (distance : Option ℚ)
    (topic doc_type preprocessor_id : Option String)
    (paper_ids : Option (List String))
    (move_to : Option String) (move_to_weight : Option ℚ)
    (move_away_from : Option String) (move_away_from_weight : Option ℚ) :
    Query :=
  let q0 : Query :=
    ⟨"Passage", output_fields, ["distance"], none, none, none⟩
  let ops := buildWhereOperands topic doc_type preprocessor_id paper_ids
  let q1 := if ops.isEmpty then q0
    else { q0 with whereFilter := some ⟨"And", ops⟩ }
  let nt := buildNearText question distance move_to move_to_weight
    move_away_from move_away_from_weight
  { q1 with nearText := some nt, limit := some top_k }

/-- The response-handling tail of `get_documents`: forward upstream
errors as a 500, missing or empty data as a 404, and otherwise convert
each passage to a `Document`. -/
def handle_response (results : WeaviateResponse) :
    Except HTTPException (List Document) :=
  match results.errors with
  | some e => .error ⟨500, .upstream e⟩
  | none =>
    match results.data with
    | none => .error ⟨404, .noResults results⟩
    | some d =>
      if d.Passage.isEmpty then .error ⟨404, .noResults results⟩
      else .ok (d.Passage.map to_document)

/-- `get_documents`: build the query, run it once against the client,
and reshape the response. -/
def get_documents (client : Query → WeaviateResponse) (question : String)
    (top_k : Nat) (distance : Option ℚ)
    (topic doc_type preprocessor_id : Option String)
    (paper_ids : Option (List String))
    (move_to : Option String) (move_to_weight : Option ℚ)
    (move_away_from : Option String) (move_away_from_weight : Option ℚ) :
    Except HTTPException (List Document) :=
  handle_response (client (build_query question top_k distance topic
    doc_type preprocessor_id paper_ids move_to move_to_weight
    move_away_from move_away_from_weight))

end Askem

namespace Backend

/-! ## Chat-completion payloads (`src/backend.py`) -/

/-- One message dict `{"role": ..., "content": ...}` of a
chat-completion request. -/
structure Message where
  role : String
  content : String
  deriving Repr, DecidableEq

/-- One choice of a chat-completion response. -/
structure Choice where
  message : Message
  deriving Repr, DecidableEq

/-- A chat-completion response: a list of choices. -/
structure ChatResponse where
  choices : List Choice
  deriving Repr, DecidableEq

/-- The two-message payload `_compress` sends for one chunk. -/
def _compress_messages (chunk : String) : List Message :=
  [⟨"system", "Summarize the upcoming passage into key points precisely."⟩,
   ⟨"user", chunk⟩]

/-- `_compress`: send the payload to the chat API (modelled as an oracle
from messages to the returned content) and return the first choice's
content. -/
def _compress (api : List Message → String) (chunk : String) : String :=
  api (_compress_messages chunk)

/-- The three-message payload `get_answer` sends. -/
def get_answer_messages (context question : String) : List Message :=
  [⟨"system",
    "Study the upcoming passage carefully and answer the questions that follows."⟩,
   ⟨"user", context ++ "Do you understand the passage?"⟩,
   ⟨"user",
    question ++ " Provide your answer in a precise and concise manner."⟩]

/-- `get_answer`: send the three messages and return
`response.choices[0].message.content` (`none` models the Python
`IndexError` on an empty choice list). -/
def get_answer (api : List Message → ChatResponse)
    (context question : String) : Option String :=
  ((api (get_answer_messages context question)).choices.head?).map
    (fun c => c.message.content)

/-! ## Thread-pool model for `compress`

`compress` maps `_compress` over the chunks with a
`ThreadPoolExecutor`.  We model an execution of the pool by a schedule:
the list of task indices in the order the pool happens to run them (a
permutation of `0, ..., n-1`, since `executor.map` runs each task exactly
once).  A finished task writes its result into its own slot, and
`executor.map` then yields the slots in index order. -/

/-- Run the scheduled tasks: each index `i` of the schedule computes
`f` on chunk `i` and stores the result in slot `i`. -/
def poolRun (f : String → String) (chunks : List String)
    (sched : List Nat) : List (Option String) :=
  sched.foldl (fun slots i => slots.set i (some (f (chunks.getD i ""))))
    (List.replicate chunks.length none)

/-- Collect the slots in index order; `none` if some slot never ran. -/
def collect : List (Option String) → Option (List String)
  | [] => some []
  | none :: _ => none
  | some x :: rest => (collect rest).map (fun l => x :: l)

/-- `compress` under a given pool schedule: map `_compress` over the
chunks on the pool and collect the results in input order. -/
def compress (api : List Message → String) (chunks : List String)
    (sched : List Nat) : Option (List String) :=
  collect (poolRun (_compress api) chunks sched)

/-! ## Python `str.format` model

`summarize` and `prompt_sum` build an f-string and then call `.format`
on the already-interpolated result.  We model CPython's format scanner
character by character: `\x7b\x7b` and `\x7d\x7d` are escapes, a
replacement field `\x7b...\x7d` is resolved by a lookup oracle (`none`
models a `KeyError`/`IndexError`), a lone `\x7d` is an error, and an
unterminated field is an error at end of input. -/

/-- Scanner state of the format machine. -/
inductive FmtState where
  | normal
  | openBrace
  | closeBrace
  | inField (acc : List Char)
  deriving Repr, DecidableEq

/-- One step of the format scanner on the next character. -/
def fmtStep (lookup : List Char → Option (List Char))
    (st : List Char × FmtState) (c : Char) :
    Option (List Char × FmtState) :=
  match st.2 with
  | .normal =>
    if c = '{' then some (st.1, .openBrace)
    else if c = '}' then some (st.1, .closeBrace)
    else some (st.1 ++ [c], .normal)
  | .openBrace =>
    if c = '{' then some (st.1 ++ ['{'], .normal)
    else if c = '}' then (lookup []).map (fun v => (st.1 ++ v, .normal))
    else some (st.1, .inField [c])
  | .closeBrace =>
    if c = '}' then some (st.1 ++ ['}'], .normal)
    else none
  | .inField acc =>
    if c = '}' then (lookup acc).map (fun v => (st.1 ++ v, .normal))
    else some (st.1, .inField (acc ++ [c]))

/-- `template.format(...)` with replacement fields resolved by `lookup`. -/
def pyFormat (lookup : List Char → Option (List Char))
    (cs : List Char) : Option (List Char) :=
  match cs.foldlM (fmtStep lookup) (([] : List Char), FmtState.normal) with
  | some (out, .normal) => some out
  | _ => none

/-- Python's `'.'.join`, on character lists. -/
def joinWith (sep : List Char) : List (List Char) → List Char
  | [] => []
  | [x] => x
  | x :: y :: rest => x ++ sep ++ joinWith sep (y :: rest)

/-- The f-string `TEMPLATE` built by `summarize`. -/
def summarize_template (sentences : List (List Char)) : List Char :=
  "summarize: ".data ++ joinWith ['.'] sentences

/-- The string `summarize` passes to `_t5`:
`TEMPLATE.format(sentences)`. -/
def summarize_t5_input (lookup : List Char → Option (List Char))
    (sentences : List (List Char)) : Option (List Char) :=
  pyFormat lookup (summarize_template sentences)

/-- The f-string `TEMPLATE` built by `prompt_sum`. -/
def prompt_sum_template (text question : List Char) : List Char :=
  "Based on the following context answer this question: ".data ++
    question ++ " Context: ".data ++ text

/-- The string `prompt_sum` passes to `_t5`:
`TEMPLATE.format(question=question, article=text)`. -/
def prompt_sum_t5_input (lookup : List Char → Option (List Char))
    (text question : List Char) : Option (List Char) :=
  pyFormat lookup (prompt_sum_template text question)

/-! ## Tensors and `dot_score` -/

/-- A torch tensor of one or two dimensions, with exact scalars. -/
inductive Tensor where
  | one (v : List ℚ)
  | two (m : List (List ℚ))
  deriving Repr, DecidableEq

/-- `t.unsqueeze(0) if len(t.shape) == 1 else t`: promote a 1-D tensor
to a single-row 2-D tensor. -/
def unsqueeze0 : Tensor → List (List ℚ)
  | .one v => [v]
  | .two m => m

/-- Row-times-row dot product (sum of componentwise products). -/
def dotL (x y : List ℚ) : ℚ :=
  (List.zipWith (fun a b => a * b) x y).sum

/-- Transpose of a (rectangular) matrix: column `j` collects the `j`-th
entry of every row; the column count is the first row's length. -/
def transposeL (m : List (List ℚ)) : List (List ℚ) :=
  (List.range (m.headD []).length).map (fun j => m.map (fun r => r.getD j 0))

/-- Matrix product: entry `(i, j)` is the dot product of row `i` of `a`
with column `j` of `b`. -/
def matMul (a b : List (List ℚ)) : List (List ℚ) :=
  a.map (fun r => (transposeL b).map (fun c => dotL r c))

/-- `dot_score`: promote the arguments to 2-D and return `a @ b.T`. -/
def dot_score (a b : Tensor) : List (List ℚ) :=
  matMul (unsqueeze0 a) (transposeL (unsqueeze0 b))

/-! ## State model for the wrapper functions

`backend.py` has no module-level mutable state other than the lazily
loaded model weights (and the API key fixed at import).  A state carries
the set of loaded weight names and an arbitrary environment `σ` that no
wrapper may touch; each wrapper returns the request payload it builds
together with the post-call state. -/

/-- Mutable state visible to the wrappers: the loaded model weights and
everything else (`other`), which must survive every call unchanged. -/
structure BackendState (σ : Type) where
  loaded_weights : List String
  other : σ
  deriving Repr, DecidableEq

/-- Load weights for `name` unless already loaded. -/
def load_weight (name : String) (w : List String) : List String :=
  if name ∈ w then w else w ++ [name]

/-- The tokenization request `to_embeddings` builds. -/
structure EmbedRequest where
  sentences : List String
  model : String
  padding : Bool
  truncation : Bool
  deriving Repr, DecidableEq

/-- The generation request `_t5` builds (`none` input models a format
error in the caller). -/
structure T5Request where
  input : Option (List Char)
  model_name : String
  max_input_length : Nat
  max_output_length : Nat
  deriving Repr, DecidableEq

/-- `compress` as a state transformer: builds one chat payload per chunk
and loads no weights. -/
def compress_run {σ : Type} (chunks : List String)
    (s : BackendState σ) : List (List Message) × BackendState σ :=
  (chunks.map _compress_messages, s)

/-- `get_answer` as a state transformer: builds the three-message payload
and loads no weights. -/
def get_answer_run {σ : Type} (context question : String)
    (s : BackendState σ) : List Message × BackendState σ :=
  (get_answer_messages context question, s)

/-- `to_embeddings` as a state transformer: loads the tokenizer and model
weights for `model` and builds the tokenization request. -/
def to_embeddings_run {σ : Type} (sentences : List String)
    (model : String) (s : BackendState σ) :
    EmbedRequest × BackendState σ :=
  (⟨sentences, model, true, true⟩,
   ⟨load_weight model s.loaded_weights, s.other⟩)

/-- `summarize` as a state transformer: formats the template, loads the
T5 weights and builds the generation request. -/
def summarize_run {σ : Type} (lookup : List Char → Option (List Char))
    (sentences : List (List Char)) (model_name : String)
    (s : BackendState σ) : T5Request × BackendState σ :=
  (⟨summarize_t5_input lookup sentences, model_name, 16384, 512⟩,
   ⟨load_weight model_name s.loaded_weights, s.other⟩)

/-- `prompt_sum` as a state transformer. -/
def prompt_sum_run {σ : Type} (lookup : List Char → Option (List Char))
    (text question : List Char) (model_name : String)
    (s : BackendState σ) : T5Request × BackendState σ :=
  (⟨prompt_sum_t5_input lookup text question, model_name, 16384, 512⟩,
   ⟨load_weight model_name s.loaded_weights, s.other⟩)

/-- `dot_score` as a state transformer: a pure computation. -/
def dot_score_run {σ : Type} (a b : Tensor) (s : BackendState σ) :
    List (List ℚ) × BackendState σ :=
  (dot_score a b, s)

end Backend

namespace Askem

/-- C1: `get_documents` forwards an upstream `errors` key as an
`HTTPException` with status 500 carrying the errors as detail, raises a
404 when the response lacks `data` or the passage list is empty, and
performs no other failure handling: it is exactly one client call
followed by this pure response reshaping. -/
theorem get_documents_error_forwarding (results : WeaviateResponse) :
    (∀ e, results.errors = some e →
      handle_response results = .error ⟨500, Detail.upstream e⟩) ∧
    (results.errors = none → results.data = none →
      handle_response results = .error ⟨404, Detail.noResults results⟩) ∧
    (∀ d, results.errors = none → results.data = some d →
      d.Passage = [] →
      handle_response results = .error ⟨404, Detail.noResults results⟩) ∧
    (∀ d, results.errors = none → results.data = some d →
      d.Passage ≠ [] →
      handle_response results = .ok (d.Passage.map to_document)) ∧
    (∀ client question top_k distance topic doc_type preprocessor_id
        paper_ids move_to move_to_weight move_away_from
        move_away_from_weight,
      get_documents client question top_k distance topic doc_type
          preprocessor_id paper_ids move_to move_to_weight move_away_from
          move_away_from_weight =
        handle_response (client (build_query question top_k distance topic
          doc_type preprocessor_id paper_ids move_to move_to_weight
          move_away_from move_away_from_weight))) := by
  refine ⟨?_, ?_, ?_, ?_, ?_⟩
  · intro e he
    simp [handle_response, he]
  · intro he hd
    simp [handle_response, he, hd]
  · intro d he hd hp
    simp [handle_response, he, hd, hp]
  · intro d he hd hp
    simp [handle_response, he, hd, List.isEmpty_iff, hp]
  · intro client question top_k distance topic doc_type preprocessor_id
      paper_ids move_to move_to_weight move_away_from move_away_from_weight
    rfl

/-- Witness for C1: on a response carrying errors, `handle_response`
raises the 500 with the upstream errors as detail. -/
theorem get_documents_error_forwarding_witness :
    handle_response ⟨some "boom", none⟩ =
      .error ⟨500, Detail.upstream "boom"⟩ :=
  (get_documents_error_forwarding ⟨some "boom", none⟩).1 "boom" rfl

/-- C2: the query built by `get_documents` carries a `where` filter iff
at least one of `topic`, `doc_type`, `preprocessor_id`, `paper_ids` is
non-`None`, and that filter is an `And` of exactly one `Equal` clause per
non-`None` scalar filter plus one `ContainsAny` clause on `paper_id` when
`paper_ids` is given, each carrying the provided value unchanged. -/
theorem build_query_where_filter (question : String) (top_k : Nat)
    (distance : Option ℚ) (topic doc_type preprocessor_id : Option String)
    (paper_ids : Option (List String)) (move_to : Option String)
    (move_to_weight : Option ℚ) (move_away_from : Option String)
    (move_away_from_weight : Option ℚ) :
    (build_query question top_k distance topic doc_type preprocessor_id
        paper_ids move_to move_to_weight move_away_from
        move_away_from_weight).whereFilter =
      (if topic = none ∧ doc_type = none ∧ preprocessor_id = none ∧
          paper_ids = none
       then none
       else some ⟨"And",
        (topic.map (fun t => Operand.mk ["topic"] "Equal" (.s t))).toList ++
        (doc_type.map
          (fun t => Operand.mk ["doc_type"] "Equal" (.s t))).toList ++
        (preprocessor_id.map
          (fun t => Operand.mk ["preprocessor_id"] "Equal" (.s t))).toList ++
        (paper_ids.map
          (fun l => Operand.mk ["paper_id"] "ContainsAny" (.l l))).toList⟩) := by
  rcases topic with _ | t <;> rcases doc_type with _ | dt <;>
    rcases preprocessor_id with _ | p <;> rcases paper_ids with _ | pl <;>
    simp [build_query, buildWhereOperands]

/-- C3: the semantic-search payload always has concepts `[question]`,
carries `distance` / `moveTo` / `moveAwayFrom` entries exactly when the
corresponding argument is non-`None` (with the given force weights), and
the query's limit is `top_k`. -/
theorem build_query_near_text (question : String) (top_k : Nat)
    (distance : Option ℚ) (topic doc_type preprocessor_id : Option String)
    (paper_ids : Option (List String)) (move_to : Option String)
    (move_to_weight : Option ℚ) (move_away_from : Option String)
    (move_away_from_weight : Option ℚ) :
    (build_query question top_k distance topic doc_type preprocessor_id
        paper_ids move_to move_to_weight move_away_from
        move_away_from_weight).nearText =
      some ⟨[question], distance,
        move_to.map (fun m => MoveClause.mk [m] move_to_weight),
        move_away_from.map
          (fun m => MoveClause.mk [m] move_away_from_weight)⟩ ∧
    (build_query question top_k distance topic doc_type preprocessor_id
        paper_ids move_to move_to_weight move_away_from
        move_away_from_weight).limit = some top_k := by
  constructor
  · show some (buildNearText question distance move_to move_to_weight
      move_away_from move_away_from_weight) = _
    rcases distance with _ | d <;> rcases move_to with _ | mt <;>
      rcases move_away_from with _ | maf <;> rfl
  · rfl

/-- C4: on success `get_documents` returns one `Document` per passage
entry, in order, each field copied from the corresponding JSON field
(`text` from `text_content`, `distance` from `_additional.distance`). -/
theorem get_documents_success (client : Query → WeaviateResponse)
    (question : String) (top_k : Nat) (distance : Option ℚ)
    (topic doc_type preprocessor_id : Option String)
    (paper_ids : Option (List String)) (move_to : Option String)
    (move_to_weight : Option ℚ) (move_away_from : Option String)
    (move_away_from_weight : Option ℚ) (d : GetField)
    (herr : (client (build_query question top_k distance topic doc_type
      preprocessor_id paper_ids move_to move_to_weight move_away_from
      move_away_from_weight)).errors = none)
    (hdata : (client (build_query question top_k distance topic doc_type
      preprocessor_id paper_ids move_to move_to_weight move_away_from
      move_away_from_weight)).data = some d)
    (hne : d.Passage ≠ []) :
    get_documents client question top_k distance topic doc_type
        preprocessor_id paper_ids move_to move_to_weight move_away_from
        move_away_from_weight = .ok (d.Passage.map to_document) ∧
    (d.Passage.map to_document).length = d.Passage.length ∧
    (∀ i (h1 : i < d.Passage.length)
        (h2 : i < (d.Passage.map to_document).length),
      (d.Passage.map to_document).get ⟨i, h2⟩ =
        to_document (d.Passage.get ⟨i, h1⟩)) ∧
    (∀ p : PassageResult, to_document p =
      ⟨p.paper_id, p.topic, p.cosmos_object_id, p.doc_type, p.text_content,
        p.additional.distance⟩) := by
  refine ⟨?_, by simp, ?_, fun p => rfl⟩
  · simp [get_documents, handle_response, herr, hdata, List.isEmpty_iff, hne]
  · intro i h1 h2
    simp

/-- Witness for C4: a one-passage success response maps to the one
converted document. -/
theorem get_documents_success_witness :
    get_documents
        (fun _ => ⟨none, some ⟨[⟨"p1", "c1", "pre", "t1", "dt", "txt", ⟨1/2⟩⟩]⟩⟩)
        "q" 5 none none none none none none none none none =
      .ok [⟨"p1", "t1", "c1", "dt", "txt", 1/2⟩] :=
  (get_documents_success
    (fun _ => ⟨none, some ⟨[⟨"p1", "c1", "pre", "t1", "dt", "txt", ⟨1/2⟩⟩]⟩⟩)
    "q" 5 none none none none none none none none none
    ⟨[⟨"p1", "c1", "pre", "t1", "dt", "txt", ⟨1/2⟩⟩]⟩
    rfl rfl (by simp)).1

end Askem

namespace Askem

/-- C6: the schema consistency claim fails on the code: `get_documents`
requests the output field `"topic"` and `to_document` reads
`result["topic"]`, but the schema returned by `get_schema` (and created
by `init_retriever`) declares a `"topic_list"` property and no
`"topic"` property; every other requested field is declared. -/
theorem schema_topic_mismatch :
    "topic" ∈ output_fields ∧
    "topic" ∈ to_document_fields ∧
    "topic" ∉ (get_schema "Passage").properties.map SchemaProperty.name ∧
    "topic_list" ∈ (get_schema "Passage").properties.map SchemaProperty.name ∧
    (∀ f ∈ output_fields, f ≠ "topic" →
      f ∈ (get_schema "Passage").properties.map SchemaProperty.name) ∧
    (∀ f ∈ to_document_fields, f ≠ "topic" →
      f ∈ (get_schema "Passage").properties.map SchemaProperty.name) := by
  decide

end Askem

namespace Backend

/-- C9: `get_answer` sends exactly the fixed system instruction, the
context followed by the understanding prompt, and the question followed
by the precision prompt, and returns the first choice's message content
unchanged. -/
theorem get_answer_payload_spec (api : List Message → ChatResponse)
    (context question : String) :
    get_answer api context question =
      ((api
        [⟨"system",
          "Study the upcoming passage carefully and answer the questions that follows."⟩,
         ⟨"user", context ++ "Do you understand the passage?"⟩,
         ⟨"user",
          question ++ " Provide your answer in a precise and concise manner."⟩]
       ).choices.head?).map (fun c => c.message.content) ∧
    (get_answer_messages context question).length = 3 :=
  ⟨rfl, rfl⟩

/-- C8: every wrapper builds a payload that depends only on its
arguments (identical from any two pre-states), and the only state any of
them mutates is the lazily loaded weight cache; everything else
(`other`, and for the pure wrappers the whole state) survives each call
unchanged. -/
theorem backend_wrappers_stateless {σ : Type} (s s1 s2 : BackendState σ)
    (chunks : List String) (context question : String)
    (sentences : List String) (model : String)
    (lookup : List Char → Option (List Char))
    (sentencesC : List (List Char)) (text questionC : List Char)
    (model_name : String) (a b : Tensor) :
    ((compress_run chunks s1).1 = (compress_run chunks s2).1 ∧
     (get_answer_run context question s1).1 =
       (get_answer_run context question s2).1 ∧
     (to_embeddings_run sentences model s1).1 =
       (to_embeddings_run sentences model s2).1 ∧
     (summarize_run lookup sentencesC model_name s1).1 =
       (summarize_run lookup sentencesC model_name s2).1 ∧
     (prompt_sum_run lookup text questionC model_name s1).1 =
       (prompt_sum_run lookup text questionC model_name s2).1 ∧
     (dot_score_run a b s1).1 = (dot_score_run a b s2).1) ∧
    ((compress_run chunks s).2 = s ∧
     (get_answer_run context question s).2 = s ∧
     (dot_score_run a b s).2 = s ∧
     (to_embeddings_run sentences model s).2 =
       ⟨load_weight model s.loaded_weights, s.other⟩ ∧
     (summarize_run lookup sentencesC model_name s).2 =
       ⟨load_weight model_name s.loaded_weights, s.other⟩ ∧
     (prompt_sum_run lookup text questionC model_name s).2 =
       ⟨load_weight model_name s.loaded_weights, s.other⟩) :=
  ⟨⟨rfl, rfl, rfl, rfl, rfl, rfl⟩, ⟨rfl, rfl, rfl, rfl, rfl, rfl⟩⟩

/-! ### Thread-pool lemmas for C5 -/

/-- The pool fold preserves the slot-list length. -/
theorem poolRun_foldl_length (f : String → String) (chunks : List String)
    (sched : List Nat) (init : List (Option String)) :
    (sched.foldl
      (fun slots i => slots.set i (some (f (chunks.getD i "")))) init).length
      = init.length := by
  induction sched generalizing init with
  | nil => rfl
  | cons j rest ih =>
    rw [List.foldl_cons, ih]
    exact List.length_set init j _

/-- A slot whose index is never scheduled keeps its initial value. -/
theorem poolRun_foldl_not_mem (f : String → String) (chunks : List String)
    (i : Nat) (sched : List Nat) (init : List (Option String))
    (h : i ∉ sched) :
    (sched.foldl
      (fun slots i => slots.set i (some (f (chunks.getD i "")))) init)[i]?
      = init[i]? := by
  induction sched generalizing init with
  | nil => rfl
  | cons j rest ih =>
    simp only [List.mem_cons, not_or] at h
    rw [List.foldl_cons, ih _ h.2, List.getElem?_set_ne (Ne.symm h.1)]

/-- A scheduled slot ends up holding its own task's result. -/
theorem poolRun_foldl_mem (f : String → String) (chunks : List String)
    (i : Nat) (sched : List Nat) (init : List (Option String))
    (h : i ∈ sched) (hlen : i < init.length) :
    (sched.foldl
      (fun slots i => slots.set i (some (f (chunks.getD i "")))) init)[i]?
      = some (some (f (chunks.getD i ""))) := by
  induction sched generalizing init with
  | nil => simp at h
  | cons j rest ih =>
    rw [List.foldl_cons]
    by_cases hm : i ∈ rest
    · exact ih _ hm (by rw [List.length_set]; exact hlen)
    · have hij : i = j := by
        rcases List.mem_cons.mp h with h1 | h2
        · exact h1
        · exact absurd h2 hm
      subst hij
      rw [poolRun_foldl_not_mem f chunks i rest _ hm,
        List.getElem?_set_eq_of_lt _ hlen]

/-- Any schedule that runs every task exactly once fills the slots with
the sequential map. -/
theorem poolRun_spec (f : String → String) (chunks : List String)
    (sched : List Nat) (hp : sched.Perm (List.range chunks.length)) :
    poolRun f chunks sched = chunks.map (fun c => some (f c)) := by
  apply List.ext_getElem?
  intro n
  by_cases hn : n < chunks.length
  · have hmem : n ∈ sched := hp.mem_iff.mpr (List.mem_range.mpr hn)
    rw [poolRun, poolRun_foldl_mem f chunks n sched _ hmem
      (by rw [List.length_replicate]; exact hn)]
    rw [List.getD_eq_getElem chunks "" hn, List.getElem?_map,
      List.getElem?_eq_getElem hn]
    rfl
  · have h1 : n ≥ chunks.length := Nat.le_of_not_lt hn
    rw [List.getElem?_eq_none
        (by rw [poolRun, poolRun_foldl_length, List.length_replicate]; exact h1),
      List.getElem?_eq_none (by rw [List.length_map]; exact h1)]

/-- Collecting slots that all hold mapped values yields the map. -/
theorem collect_map (f : String → String) (l : List String) :
    collect (l.map (fun c => some (f c))) = some (l.map f) := by
  induction l with
  | nil => rfl
  | cons x rest ih => simp [collect, ih]

/-- C5: under any thread-pool schedule that runs each chunk's task once,
`compress` returns exactly the sequential map of `_compress` over the
chunks — same length, with the `i`-th output computed from the `i`-th
chunk, in input order. -/
theorem compress_refines_map (api : List Message → String)
    (chunks : List String) (sched : List Nat)
    (hp : sched.Perm (List.range chunks.length)) :
    compress api chunks sched = some (chunks.map (_compress api)) ∧
    (chunks.map (_compress api)).length = chunks.length ∧
    (∀ i (h1 : i < chunks.length)
        (h2 : i < (chunks.map (_compress api)).length),
      (chunks.map (_compress api)).get ⟨i, h2⟩ =
        _compress api (chunks.get ⟨i, h1⟩)) := by
  refine ⟨?_, by simp, ?_⟩
  · rw [compress, poolRun_spec _ _ _ hp, collect_map]
  · intro i h1 h2
    simp

/-- Witness for C5: a two-chunk pool that runs task 1 before task 0
still returns the results in input order. -/
theorem compress_refines_map_witness :
    compress (fun ms => (ms.getD 1 ⟨"", ""⟩).content) ["a", "b"] [1, 0] =
      some ["a", "b"] := by
  have h := (compress_refines_map (fun ms => (ms.getD 1 ⟨"", ""⟩).content)
    ["a", "b"] [1, 0] (by decide)).1
  rw [h]
  rfl

end Backend

namespace Backend

/-! ### Format-scanner lemmas for C7 -/

/-- A character that is not a brace is copied through verbatim in the
normal state. -/
theorem fmtStep_plain (lookup : List Char → Option (List Char))
    (out : List Char) (c : Char) (h1 : c ≠ '{') (h2 : c ≠ '}') :
    fmtStep lookup (out, FmtState.normal) c =
      some (out ++ [c], FmtState.normal) := by
  simp [fmtStep, h1, h2]

/-- A brace-free suffix leaves the scanner in the normal state with the
characters appended verbatim. -/
theorem foldlM_fmtStep_no_braces (lookup : List Char → Option (List Char))
    (cs : List Char) (h : ∀ c ∈ cs, c ≠ '{' ∧ c ≠ '}') (out : List Char) :
    cs.foldlM (fmtStep lookup) (out, FmtState.normal) =
      some (out ++ cs, FmtState.normal) := by
  induction cs generalizing out with
  | nil => simp
  | cons c rest ih =>
    have hc := h c (List.mem_cons_self c rest)
    rw [List.foldlM_cons, fmtStep_plain lookup out c hc.1 hc.2]
    show rest.foldlM (fmtStep lookup) (out ++ [c], FmtState.normal) = _
    rw [ih (fun x hx => h x (List.mem_cons_of_mem c hx)) (out ++ [c])]
    simp

/-- `str.format` is the identity on a brace-free template. -/
theorem pyFormat_no_braces (lookup : List Char → Option (List Char))
    (cs : List Char) (h : ∀ c ∈ cs, c ≠ '{' ∧ c ≠ '}') :
    pyFormat lookup cs = some cs := by
  rw [pyFormat, foldlM_fmtStep_no_braces lookup cs h []]
  simp

/-- Any character of a join comes from the separator or from one of the
joined pieces. -/
theorem mem_joinWith (sep : List Char) (l : List (List Char)) :
    ∀ c ∈ joinWith sep l, c ∈ sep ∨ ∃ x ∈ l, c ∈ x := by
  induction l with
  | nil => simp [joinWith]
  | cons x rest ih =>
    cases rest with
    | nil =>
      intro c hc
      right
      exact ⟨x, List.mem_cons_self x [], by simpa [joinWith] using hc⟩
    | cons y rest2 =>
      intro c hc
      rw [joinWith] at hc
      rcases List.mem_append.mp hc with h1 | h2
      · rcases List.mem_append.mp h1 with h3 | h4
        · right
          exact ⟨x, List.mem_cons_self x _, h3⟩
        · left
          exact h4
      · rcases ih c h2 with h3 | ⟨z, hz, hcz⟩
        · left
          exact h3
        · right
          exact ⟨z, List.mem_cons_of_mem x hz, hcz⟩

/-- C7: when no sentence (resp. no question or context text) contains a
brace, the trailing `.format(...)` call is a no-op, so `summarize`
passes `_t5` exactly `"summarize: "` followed by the sentences joined
with `"."`, and `prompt_sum` passes exactly the prompt template with the
question and text interpolated. -/
theorem summarize_prompt_sum_exact_strings
    (lookup : List Char → Option (List Char))
    (sentences : List (List Char)) (text question : List Char)
    (hs : ∀ s ∈ sentences, ∀ c ∈ s, c ≠ '{' ∧ c ≠ '}')
    (hne : sentences ≠ [])
    (ht : ∀ c ∈ text, c ≠ '{' ∧ c ≠ '}')
    (hq : ∀ c ∈ question, c ≠ '{' ∧ c ≠ '}') :
    summarize_t5_input lookup sentences =
      some ("summarize: ".data ++ joinWith ['.'] sentences) ∧
    prompt_sum_t5_input lookup text question =
      some ("Based on the following context answer this question: ".data ++
        question ++ " Context: ".data ++ text) := by
  have hlit1 : ∀ c ∈ "summarize: ".data, c ≠ '{' ∧ c ≠ '}' := by decide
  have hlit2 : ∀ c ∈ "Based on the following context answer this question: ".data,
      c ≠ '{' ∧ c ≠ '}' := by decide
  have hlit3 : ∀ c ∈ " Context: ".data, c ≠ '{' ∧ c ≠ '}' := by decide
  constructor
  · have hnb : ∀ c ∈ summarize_template sentences, c ≠ '{' ∧ c ≠ '}' := by
      intro c hc
      rw [summarize_template] at hc
      rcases List.mem_append.mp hc with h1 | h2
      · exact hlit1 c h1
      · rcases mem_joinWith ['.'] sentences c h2 with h3 | ⟨x, hx, hcx⟩
        · have : c = '.' := by simpa using h3
          subst this
          decide
        · exact hs x hx c hcx
    exact pyFormat_no_braces lookup _ hnb
  · have hnb : ∀ c ∈ prompt_sum_template text question,
        c ≠ '{' ∧ c ≠ '}' := by
      intro c hc
      rw [prompt_sum_template] at hc
      rcases List.mem_append.mp hc with h1 | h2
      · rcases List.mem_append.mp h1 with h3 | h4
        · rcases List.mem_append.mp h3 with h5 | h6
          · exact hlit2 c h5
          · exact hq c h6
        · exact hlit3 c h4
      · exact ht c h2
    exact pyFormat_no_braces lookup _ hnb

/-- Witness for C7: two brace-free sentences pass through `.format`
untouched, yielding the joined summarize prompt. -/
theorem summarize_prompt_sum_exact_strings_witness :
    summarize_t5_input (fun _ => none) ["ab".data, "cd".data] =
      some "summarize: ab.cd".data := by
  have h := (summarize_prompt_sum_exact_strings (fun _ => none)
    ["ab".data, "cd".data] [] [] (by decide) (by decide) (by decide)
    (by decide)).1
  rw [h]
  decide

/-! ### Transpose lemmas for C10 -/

/-- Reading every index of a list back with `getD` reproduces the list. -/
theorem range_map_getD (b : List ℚ) :
    (List.range b.length).map (fun j => b.getD j 0) = b := by
  apply List.ext_getElem?
  intro n
  by_cases hn : n < b.length
  · rw [List.getElem?_map, List.getElem?_range hn,
      List.getElem?_eq_getElem hn]
    show some (b.getD n 0) = _
    rw [List.getD_eq_getElem b 0 hn]
  · have h1 : b.length ≤ n := Nat.le_of_not_lt hn
    rw [List.getElem?_eq_none (by rw [List.length_map, List.length_range]; exact h1),
      List.getElem?_eq_none h1]

/-- Transposing a single-row matrix yields the column vector. -/
theorem transposeL_single (b : List ℚ) :
    transposeL [b] = b.map (fun v => [v]) := by
  show (List.range b.length).map (fun j => [b].map (fun r => r.getD j 0)) = _
  conv_rhs => rw [← range_map_getD b]
  rw [List.map_map]
  rfl

/-- Transposing a non-empty column vector yields the single-row matrix. -/
theorem transposeL_map_singleton (l : List ℚ) (hl : l ≠ []) :
    transposeL (l.map (fun v => [v])) = [l] := by
  obtain ⟨x, t, rfl⟩ := List.exists_cons_of_ne_nil hl
  show (List.range ((((x :: t).map (fun v => [v])).headD []).length)).map
      (fun j => ((x :: t).map (fun v => [v])).map (fun r => r.getD j 0)) = _
  rw [List.map_cons, List.headD_cons]
  show (List.range 1).map
      (fun j => ([x] :: t.map (fun v => [v])).map (fun r => r.getD j 0)) = _
  have hr1 : List.range 1 = [0] := rfl
  simp only [hr1, List.map_cons, List.map_nil, List.map_map]
  have h2 : ((fun r : List ℚ => r.getD 0 0) ∘ fun v => [v]) = id := rfl
  rw [h2, List.map_id]
  rfl

end Backend

namespace Backend

/-- C10: `dot_score` is the matrix product of `a` with the transpose of
`b` after promoting 1-D inputs to single-row matrices, and on two 1-D
vectors of equal (positive) length it returns the 1-by-1 matrix holding
their dot product. -/
theorem dot_score_spec (a b : List ℚ) (ha : a ≠ [])
    (hlen : a.length = b.length) :
    dot_score (.one a) (.one b) =
      [[(List.zipWith (fun x y => x * y) a b).sum]] ∧
    (∀ t u : Tensor,
      dot_score t u = matMul (unsqueeze0 t) (transposeL (unsqueeze0 u))) ∧
    unsqueeze0 (.one a) = [a] := by
  have hb : b ≠ [] := by
    intro h
    subst h
    exact ha (List.length_eq_zero.mp hlen)
  refine ⟨?_, fun t u => rfl, rfl⟩
  show matMul [a] (transposeL [b]) = _
  rw [matMul, transposeL_single, transposeL_map_singleton b hb]
  rfl

/-- Witness for C10: the dot score of `[1, 2]` and `[3, 4]` is the
1-by-1 matrix `[[11]]`. -/
theorem dot_score_spec_witness :
    dot_score (.one [1, 2]) (.one [3, 4]) = [[(11 : ℚ)]] := by
  have h := (dot_score_spec [1, 2] [3, 4] (by decide) (by decide)).1
  rw [h]
  norm_num

end Backend
